import Mathlib

/-!
# Verification of the low-level event dispatch core of native-windows-gui

Shallow embedding of `src/low/events.rs`: the message unpackers, the
per-control-type notification parse tables (`parse_listbox_command`,
`parse_edit_command`, `parse_static_command`, `parse_datepicker_command`,
`parse_notify`, `parse_command`) and the subclass dispatch procedure
`process_events`.

Machine integers are modelled as `Nat` bit patterns with explicit `% 2^w`
truncation where the Rust code casts (`as u32`, `as DWORD`, `HIWORD`, ...).
Panics (`unimplemented!()`, `.expect(..)`, `.unwrap()`) are modelled in an
`Except String` monad: `.error` marks a panic, `.ok` a normal return.
Platform calls (`GetClientRect`, `DefSubclassProc`, `get_menu_id`, reading
the `NMHDR` structure behind the `LPARAM` pointer) and the registry lookups
(`inner_id_from_handle`, `controls.get`) are oracles packed in environment
structures, so the dispatch procedure is a pure function of the message and
the environment.
-/

namespace Nwg

/-! ## Platform message constants (winapi values) -/

def WM_MOVE : Nat := 0x0003
def WM_SIZE : Nat := 0x0005
def WM_PAINT : Nat := 0x000F
def WM_CLOSE : Nat := 0x0010
def WM_NOTIFY : Nat := 0x004E
def WM_KEYDOWN : Nat := 0x0100
def WM_KEYUP : Nat := 0x0101
def WM_CHAR : Nat := 0x0102
def WM_UNICHAR : Nat := 0x0109
def WM_COMMAND : Nat := 0x0111
def WM_TIMER : Nat := 0x0113
def WM_SIZING : Nat := 0x0214
def WM_EXITSIZEMOVE : Nat := 0x0232
def WM_MENUCOMMAND : Nat := 0x0126
def WM_LBUTTONDOWN : Nat := 0x0201
def WM_LBUTTONUP : Nat := 0x0202
def WM_RBUTTONDOWN : Nat := 0x0204
def WM_RBUTTONUP : Nat := 0x0205
def WM_MBUTTONDOWN : Nat := 0x0207
def WM_MBUTTONUP : Nat := 0x0208
def UNICODE_NOCHAR : Nat := 0xFFFF

/-! Button / combobox / listbox / edit / static / date-picker notification
codes (winapi values, re-exported by the repository's `low::defs`). -/

def BN_CLICKED : Nat := 0
def BN_DBLCLK : Nat := 5
def BN_SETFOCUS : Nat := 6
def BN_KILLFOCUS : Nat := 7
def CBN_SELCHANGE : Nat := 1
def CBN_SETFOCUS : Nat := 3
def CBN_KILLFOCUS : Nat := 4
def LBN_SELCHANGE : Nat := 1
def LBN_DBLCLK : Nat := 2
def LBN_SETFOCUS : Nat := 4
def LBN_KILLFOCUS : Nat := 5
def EN_SETFOCUS : Nat := 0x0100
def EN_KILLFOCUS : Nat := 0x0200
def EN_UPDATE : Nat := 0x0400
def EN_MAXTEXT : Nat := 0x0501
def STN_CLICKED : Nat := 0
def STN_DBLCLK : Nat := 1
/-- Constant `DTN_CLOSEUP` is `(0u32).wrapping_sub(753)` in the platform headers. -/
def DTN_CLOSEUP : Nat := 2 ^ 32 - 753

/-- Modelled from the spec: `low::defs` is not under `src/`; the spec reserves
a private custom-message range `[NWG_CUSTOM_MIN, NWG_CUSTOM_MAX]` starting at
the platform's application message base. -/
def NWG_CUSTOM_MIN : Nat := 0x8000

/-- Modelled from the spec: upper bound of the reserved custom-message range. -/
def NWG_CUSTOM_MAX : Nat := 0x80FF

/-- Modelled from the spec: the custom destroy notification, a message inside
the reserved custom range (`low::defs::NWG_DESTROY`, not under `src/`). -/
def NWG_DESTROY : Nat := 0x8001

/-! ## Casting helpers (Rust `as` casts and winapi macros) -/

/-- Rust `x as u32` on an unsigned bit pattern. -/
def toU32 (n : Nat) : Nat := n % 2 ^ 32

/-- Rust `x as i32` reinterpreting the low 32 bits as signed. -/
def toI32 (n : Nat) : Int :=
  if n % 2 ^ 32 < 2 ^ 31 then (n % 2 ^ 32 : Int) else (n % 2 ^ 32 : Int) - 2 ^ 32

/-- Reinterpret the low 16 bits as a signed 16-bit value (C `(short)`). -/
def toI16 (n : Nat) : Int :=
  if n % 2 ^ 16 < 2 ^ 15 then (n % 2 ^ 16 : Int) else (n % 2 ^ 16 : Int) - 2 ^ 16

/-- winapi `LOWORD`: low 16 bits of a 32-bit value. -/
def LOWORD (n : Nat) : Nat := n % 2 ^ 16

/-- winapi `HIWORD`: high 16 bits of a 32-bit value. -/
def HIWORD (n : Nat) : Nat := n % 2 ^ 32 / 2 ^ 16

/-- winapi `GET_X_LPARAM`: signed x coordinate in the low word. -/
def GET_X_LPARAM (l : Nat) : Int := toI16 (LOWORD l)

/-- winapi `GET_Y_LPARAM`: signed y coordinate in the high word. -/
def GET_Y_LPARAM (l : Nat) : Int := toI16 (HIWORD l)

/-- Rust `i32 as u32` for `RECT` arithmetic (`Int` to 32-bit bit pattern). -/
def intToU32 (x : Int) : Nat := (x % (2 ^ 32 : Int)).toNat

/-! ## Data model -/

/-- Mouse buttons (`defs::MouseButton`). -/
inductive MouseButton where
  | Left
  | Right
  | Middle
deriving DecidableEq, Repr

/-- Modelled from the spec: the decoded event payload union `EventArgs`
(its defining module is not under `src/`; the variants are listed in the
spec's data model and used by `src/low/events.rs`). -/
inductive EventArgs where
  | None
  | Position (x y : Int)
  | Size (w h : Nat)
  | Char (c : Char)
  | Key (code : Nat)
  | MouseClick (btn : MouseButton) (pos : Int × Int)
  | Focus (b : Bool)
  | Tick (elapsed : Nat)
  | Raw (msg : Nat) (w : Nat) (l : Nat)
deriving DecidableEq, Repr

/-- A client rectangle as filled by `GetClientRect` (winapi `RECT`). -/
structure Rect where
  left : Int
  top : Int
  right : Int
  bottom : Int
deriving DecidableEq, Repr

/-- Platform oracle needed by the pure unpackers (`GetClientRect`). -/
structure Platform where
  getClientRect : Nat → Rect

/-- Signature of a system-message unpacker
(`fn(HWND, UINT, WPARAM, LPARAM) -> Option<EventArgs>`, with the platform
oracle made explicit and panics modelled as `.error`). -/
def SysUnpack : Type := Platform → Nat → Nat → Nat → Nat → Except String (Option EventArgs)

/-- Signature of a command-notification unpacker
(`fn(HWND, WORD) -> Option<EventArgs>`, panics modelled as `.error`). -/
def CmdUnpack : Type := Nat → Nat → Except String (Option EventArgs)

/-! ## Message unpackers (`src/low/events.rs` lines 62-132) -/

/-- Source `system_event_unpack_no_args`. -/
def system_event_unpack_no_args : SysUnpack :=
  fun _ _ _ _ _ => .ok (some EventArgs.None)

/-- Source `command_event_unpack_no_args`. -/
def command_event_unpack_no_args : CmdUnpack :=
  fun _ _ => .ok (some EventArgs.None)

/-- Source `unpack_move`: position from the low/high words of `l as u32`. -/
def unpack_move : SysUnpack :=
  fun _ _ _ _ l =>
    .ok (some (EventArgs.Position (LOWORD (toU32 l)) (HIWORD (toU32 l))))

/-- Source `unpack_size`: client-rectangle width/height from `GetClientRect`. -/
def unpack_size : SysUnpack :=
  fun p hwnd _ _ _ =>
    let r := p.getClientRect hwnd
    .ok (some (EventArgs.Size (intToU32 (r.right - r.left)) (intToU32 (r.bottom - r.top))))

/-- Rust `std::char::from_u32`: `some` exactly on valid Unicode scalar values. -/
def char_from_u32 (n : Nat) : Option Char :=
  if h : n.isValidChar then some (Char.ofNatAux n h) else none

/-- Source `unpack_char`: `None` on the `UNICODE_NOCHAR` sentinel, otherwise decode
`w as u32` as a Unicode scalar value. -/
def unpack_char : SysUnpack :=
  fun _ _ _ w _ =>
    if w = UNICODE_NOCHAR then .ok none
    else
      match char_from_u32 (toU32 w) with
      | some c => .ok (some (EventArgs.Char c))
      | none => .ok none

/-- Source `unpack_mouseclick`: button from the message code (defaulting to `Left`),
coordinates from the `LPARAM`. -/
def unpack_mouseclick : SysUnpack :=
  fun _ _ msg _ l =>
    let btn :=
      if msg = WM_LBUTTONUP ∨ msg = WM_LBUTTONDOWN then MouseButton.Left
      else if msg = WM_RBUTTONUP ∨ msg = WM_RBUTTONDOWN then MouseButton.Right
      else if msg = WM_MBUTTONUP ∨ msg = WM_MBUTTONDOWN then MouseButton.Middle
      else MouseButton.Left
    .ok (some (EventArgs.MouseClick btn (GET_X_LPARAM l, GET_Y_LPARAM l)))

/-- Source `unpack_key`: the virtual key code is `w as u32`. -/
def unpack_key : SysUnpack :=
  fun _ _ _ w _ => .ok (some (EventArgs.Key (toU32 w)))

/-- Source `unpack_btn_focus`. -/
def unpack_btn_focus : CmdUnpack :=
  fun _ ncode => .ok (some (EventArgs.Focus (ncode == BN_SETFOCUS)))

/-- Source `unpack_cbn_focus`. -/
def unpack_cbn_focus : CmdUnpack :=
  fun _ ncode => .ok (some (EventArgs.Focus (ncode == CBN_SETFOCUS)))

/-- Source `unpack_cbn_sel_change`: the body is `unimplemented!()`, a panic on every
input, modelled as `.error`. -/
def unpack_cbn_sel_change : CmdUnpack :=
  fun _ _ => .error "not implemented"

/-! ## Events -/

/-- Modelled from the spec: the `Event` tagged variant (its defining module is
not under `src/`). `System`/`SystemGroup`/`Command`/`CommandGroup` carry the
raw code(s) an event listens to and its unpacker, as in the spec's data model;
the plain tags are the variants `src/low/events.rs` produces when parsing
notifications. -/
inductive Event where
  | System (code : Nat) (unpack : SysUnpack)
  | SystemGroup (codes : List Nat) (unpack : SysUnpack)
  | Command (code : Nat) (unpack : CmdUnpack)
  | CommandGroup (codes : List Nat) (unpack : CmdUnpack)
  | Triggered
  | Tick
  | Any
  | SelectionChanged
  | DoubleClick
  | Focus
  | ValueChanged
  | LimitReached
  | Click
  | DateChanged

/-- The raw codes an event declares (`System`/`Command` one code, the group
variants a list, the plain tags none). -/
def Event.codes : Event → List Nat
  | .System c _ => [c]
  | .SystemGroup cs _ => cs
  | .Command c _ => [c]
  | .CommandGroup cs _ => cs
  | _ => []

/-! Event constants defined in `src/low/events.rs` lines 41-59. -/

def Destroyed : Event := Event.System NWG_DESTROY system_event_unpack_no_args
def Paint : Event := Event.System WM_PAINT system_event_unpack_no_args
def Close : Event := Event.System WM_CLOSE system_event_unpack_no_args
def Moved : Event := Event.System WM_MOVE unpack_move
def KeyDown : Event := Event.System WM_KEYDOWN unpack_key
def KeyUp : Event := Event.System WM_KEYUP unpack_key
def Resized : Event := Event.SystemGroup [WM_SIZING, WM_SIZE, WM_EXITSIZEMOVE] unpack_size
def CharEvent : Event := Event.SystemGroup [WM_UNICHAR, WM_CHAR] unpack_char
def MouseUp : Event := Event.SystemGroup [WM_LBUTTONUP, WM_RBUTTONUP, WM_MBUTTONUP] unpack_mouseclick
def MouseDown : Event := Event.SystemGroup [WM_LBUTTONDOWN, WM_RBUTTONDOWN, WM_MBUTTONDOWN] unpack_mouseclick
def BtnClick : Event := Event.Command BN_CLICKED command_event_unpack_no_args
def BtnDoubleClick : Event := Event.Command BN_DBLCLK command_event_unpack_no_args
def BtnFocus : Event := Event.CommandGroup [BN_SETFOCUS, BN_KILLFOCUS] unpack_btn_focus
def CbnFocus : Event := Event.CommandGroup [CBN_SETFOCUS, CBN_KILLFOCUS] unpack_cbn_focus
def CbnSelectionChanged : Event := Event.Command CBN_SELCHANGE unpack_cbn_sel_change

/-- All event constants defined in `src/low/events.rs`. -/
def allEvents : List Event :=
  [Destroyed, Paint, Close, Moved, KeyDown, KeyUp, Resized, CharEvent,
   MouseUp, MouseDown, BtnClick, BtnDoubleClick, BtnFocus, CbnFocus,
   CbnSelectionChanged]

/-- A system unpacker returns a value (no panic) at every code of a list. -/
def sysTotalOn (u : SysUnpack) (codes : List Nat) : Prop :=
  ∀ p hwnd w l, ∀ m ∈ codes, (u p hwnd m w l).isOk = true

/-- A command unpacker returns a value (no panic) at every code of a list. -/
def cmdTotalOn (u : CmdUnpack) (codes : List Nat) : Prop :=
  ∀ hwnd, ∀ m ∈ codes, (u hwnd m).isOk = true

/-- An event's unpacker is total over the code range the event declares. -/
def evtTotal : Event → Prop
  | .System c u => sysTotalOn u [c]
  | .SystemGroup cs u => sysTotalOn u cs
  | .Command c u => cmdTotalOn u [c]
  | .CommandGroup cs u => cmdTotalOn u cs
  | _ => True

/-! ## Control model -/

/-- Modelled from the spec: the `ControlType` tag enumeration (its defining
module is not under `src/`); the variants are those matched on in
`src/low/events.rs` plus the control kinds listed in the spec. -/
inductive ControlType where
  | Window
  | Button
  | GroupBox
  | ComboBox
  | ListBox
  | TextInput
  | TextBox
  | Label
  | DatePicker
  | Timer
deriving DecidableEq, Repr

/-- Modelled from the spec: a stored control as the dispatcher observes it —
its `control_type()` tag, plus the elapsed duration a `Timer` control reports
via `elapsed()` (read by the `WM_TIMER` arm). -/
structure Control where
  control_type : ControlType
  elapsed : Nat
deriving DecidableEq, Repr

/-- The tag under which built-in timers are registered
(`AnyHandle::Custom(TypeId::of::<Timer>(), ..)`); the `TypeId` is modelled as
a fixed number. -/
def timerTypeId : Nat := 0

/-- The registry's reverse-lookup key (`controls::AnyHandle`, not under
`src/`): a window handle, a menu-item-within-menu pair, or a custom
type-tag/value pair, as used by `src/low/events.rs`. -/
inductive AnyHandle where
  | HWND (hwnd : Nat)
  | HMENU_ITEM (menu : Nat) (item : Nat)
  | Custom (typeId : Nat) (value : Nat)
deriving DecidableEq, Repr

/-- winapi `NMHDR` as read behind the `WM_NOTIFY` `LPARAM` pointer. -/
structure NMHDR where
  hwndFrom : Nat
  idFrom : Nat
  code : Nat
deriving DecidableEq, Repr

/-- Environment of the dispatch procedure: the registry
(`inner_id_from_handle`, `controls.get`) and the platform oracles
(`NMHDR` memory behind an `LPARAM`, `get_menu_id`, `DefSubclassProc`). -/
structure DispatchEnv where
  resolve : AnyHandle → Option Nat
  controls : Nat → Option Control
  readNMHDR : Nat → NMHDR
  getMenuId : Nat → Int → Nat
  defSubclassProc : Nat → Nat → Nat → Nat → Int

/-- A fired callback: logical id, event tag and decoded arguments
(one `inner.trigger` invocation). -/
abbrev Trigger := Nat × Event × EventArgs

/-! ## Notification parse tables (`src/low/events.rs` lines 138-204) -/

/-- Source `parse_listbox_command`. -/
def parse_listbox_command (id : Nat) (ncode : Nat) : Option Trigger :=
  if ncode = LBN_SELCHANGE then some (id, Event.SelectionChanged, EventArgs.None)
  else if ncode = LBN_DBLCLK then some (id, Event.DoubleClick, EventArgs.None)
  else if ncode = LBN_SETFOCUS ∨ ncode = LBN_KILLFOCUS then
    some (id, Event.Focus, EventArgs.Focus (ncode == LBN_SETFOCUS))
  else none

/-- Source `parse_edit_command`. -/
def parse_edit_command (id : Nat) (ncode : Nat) : Option Trigger :=
  if ncode = EN_UPDATE then some (id, Event.ValueChanged, EventArgs.None)
  else if ncode = EN_MAXTEXT then some (id, Event.LimitReached, EventArgs.None)
  else if ncode = EN_SETFOCUS ∨ ncode = EN_KILLFOCUS then
    some (id, Event.Focus, EventArgs.Focus (ncode == EN_SETFOCUS))
  else none

/-- Source `parse_static_command`. -/
def parse_static_command (id : Nat) (ncode : Nat) : Option Trigger :=
  if ncode = STN_CLICKED then some (id, Event.Click, EventArgs.None)
  else if ncode = STN_DBLCLK then some (id, Event.DoubleClick, EventArgs.None)
  else none

/-- Source `parse_datepicker_command`: only `DTN_CLOSEUP` is recognized (the source
catches it instead of `DTN_DATETIMECHANGE`, which is sent twice). -/
def parse_datepicker_command (id : Nat) (ncode : Nat) : Option Trigger :=
  if ncode = DTN_CLOSEUP then some (id, Event.DateChanged, EventArgs.None)
  else none

/-- Source `parse_notify`: per-control-type dispatch for `WM_NOTIFY`; only
`DatePicker` has a table, everything else yields nothing. The notification
code arrives as a `WPARAM` and is truncated with `as u32`. -/
def parse_notify (id : Nat) (control_type : ControlType) (w : Nat) : Option Trigger :=
  match control_type with
  | ControlType.DatePicker => parse_datepicker_command id (toU32 w)
  | _ => none

/-- Source `parse_command`: per-control-type dispatch for `WM_COMMAND`; the
notification code is `HIWORD(w as DWORD)`. -/
def parse_command (id : Nat) (control_type : ControlType) (w : Nat) : Option Trigger :=
  let ncode := HIWORD (toU32 w)
  match control_type with
  | ControlType.ListBox => parse_listbox_command id ncode
  | ControlType.TextInput => parse_edit_command id ncode
  | ControlType.TextBox => parse_edit_command id ncode
  | ControlType.Label => parse_static_command id ncode
  | ControlType.DatePicker => parse_datepicker_command id ncode
  | _ => none

/-! ## The dispatch procedure (`process_events`, lines 210-285) -/

/-- The `match msg` block of `process_events` computing `callback_data`.
`.error` models the fatal assertions: the `.expect(..)` on a control missing
from the store under a live handle mapping (`WM_COMMAND`, `WM_NOTIFY`) and
the `.unwrap()` in the `WM_TIMER` arm. -/
def classify (env : DispatchEnv) (msg w l : Nat) : Except String (Option Trigger) :=
  if msg = WM_COMMAND then
    if l = 0 then .ok none
    else
      match env.resolve (AnyHandle.HWND l) with
      | some id =>
        match env.controls id with
        | some c => .ok (parse_command id c.control_type w)
        | none => .error "Could not find a control with with the specified type ID"
      | none => .ok none
  else if msg = WM_NOTIFY then
    let nmdr := env.readNMHDR l
    match env.resolve (AnyHandle.HWND nmdr.hwndFrom) with
    | some id =>
      match env.controls id with
      | some c => .ok (parse_notify id c.control_type nmdr.code)
      | none => .error "Could not find a control with with the specified type ID"
    | none => .ok none
  else if msg = WM_MENUCOMMAND then
    match env.resolve (AnyHandle.HMENU_ITEM l (env.getMenuId l (toI32 w))) with
    | some id => .ok (some (id, Event.Triggered, EventArgs.None))
    | none => .ok none
  else if msg = WM_TIMER then
    match env.resolve (AnyHandle.Custom timerTypeId w) with
    | some id =>
      match env.controls id with
      | some c => .ok (some (id, Event.Tick, EventArgs.Tick c.elapsed))
      | none => .error "called Option unwrap on a None value"
    | none => .ok none
  else .ok none

/-- The raw-event block: outside the reserved custom range, fire `Event::Any`
with the original message and both payload words for the window that
resolves. -/
def rawTriggers (env : DispatchEnv) (hwnd msg w l : Nat) : List Trigger :=
  if msg < NWG_CUSTOM_MIN ∨ msg > NWG_CUSTOM_MAX then
    match env.resolve (AnyHandle.HWND hwnd) with
    | some id => [(id, Event.Any, EventArgs.Raw msg w l)]
    | none => []
  else []

/-- Source `process_events`: classify, fire the classified callback (if any), fire
the raw event (if applicable), then forward to `DefSubclassProc` and return
its result. The returned list is the sequence of `inner.trigger` calls in
order; `.error` models a panic (fatal assertion), which never reaches the
default chain. -/
def process_events (env : DispatchEnv) (hwnd msg w l : Nat) :
    Except String (List Trigger × Int) := do
  let cb ← classify env msg w l
  let classified := match cb with
    | some t => [t]
    | none => []
  .ok (classified ++ rawTriggers env hwnd msg w l, env.defSubclassProc hwnd msg w l)

/-- Registry consistency: every logical id a live handle resolves to is
present in the control store (the spec's no-desynchronization condition). -/
def Consistent (env : DispatchEnv) : Prop :=
  ∀ h id, env.resolve h = some id → (env.controls id).isSome = true

/-! ## Concrete environments used to instantiate the theorems -/

/-- A platform oracle reporting an empty client rectangle everywhere. -/
def defaultPlatform : Platform := ⟨fun _ => ⟨0, 0, 0, 0⟩⟩

/-- A registry with no handle mappings and no stored controls. -/
def emptyEnv : DispatchEnv :=
  ⟨fun _ => none, fun _ => none, fun _ => ⟨0, 0, 0⟩, fun _ _ => 0, fun _ _ _ _ => 0⟩

/-- A registry mapping window handle 5 to logical id 1, holding a control of
the given type under id 1, and whose `NMHDR` memory reads sender 5 with the
given notification code. -/
def envWith (ct : ControlType) (code : Nat) : DispatchEnv :=
  ⟨fun h => if h = AnyHandle.HWND 5 then some 1 else none,
   fun id => if id = 1 then some ⟨ct, 0⟩ else none,
   fun _ => ⟨5, 0, code⟩, fun _ _ => 0, fun _ _ _ _ => 0⟩

/-- A desynchronized registry: window handle 5 resolves to logical id 1 but
the control store is empty. -/
def desyncEnv : DispatchEnv :=
  ⟨fun h => if h = AnyHandle.HWND 5 then some 1 else none,
   fun _ => none, fun _ => ⟨5, 0, 0⟩, fun _ _ => 0, fun _ _ _ _ => 0⟩

/-- A registry resolving the menu-item handle (menu 9, item id 0) to
logical id 4. -/
def menuEnv : DispatchEnv :=
  ⟨fun h => if h = AnyHandle.HMENU_ITEM 9 0 then some 4 else none,
   fun _ => none, fun _ => ⟨0, 0, 0⟩, fun _ _ => 0, fun _ _ _ _ => 0⟩

/-! ## Helper lemmas -/

/-- Unfolding of `process_events` when classification does not panic. -/
theorem process_events_eq (env : DispatchEnv) (hwnd msg w l : Nat)
    (cb : Option Trigger) (h : classify env msg w l = .ok cb) :
    process_events env hwnd msg w l =
      .ok (cb.toList ++ rawTriggers env hwnd msg w l, env.defSubclassProc hwnd msg w l) := by
  unfold process_events
  rw [h]
  cases cb <;> rfl

/-- Unfolding of `process_events` when classification panics. -/
theorem process_events_error (env : DispatchEnv) (hwnd msg w l : Nat)
    (e : String) (h : classify env msg w l = .error e) :
    process_events env hwnd msg w l = .error e := by
  unfold process_events
  rw [h]
  rfl

/-! ## C3: character unpacker on the sentinel and on valid code points -/

/-- C3: applied to the `UNICODE_NOCHAR` sentinel, the character unpacker
yields nothing (no callback fires); applied to any other `WPARAM` that is a
valid Unicode code point, it yields `Char` carrying exactly that code
point. -/
theorem unpack_char_sentinel_and_valid (p : Platform) (hwnd msg w l : Nat) :
    (w = UNICODE_NOCHAR → unpack_char p hwnd msg w l = .ok none) ∧
    (w ≠ UNICODE_NOCHAR → w.isValidChar →
      ∃ c : Char, unpack_char p hwnd msg w l = .ok (some (EventArgs.Char c)) ∧
        c.toNat = w) := by
  constructor
  · intro hw
    simp [unpack_char, hw]
  · intro hne hv
    have h32 : toU32 w = w := by
      rcases hv with h | ⟨h1, h2⟩
      · exact Nat.mod_eq_of_lt (by omega)
      · exact Nat.mod_eq_of_lt (by omega)
    refine ⟨Char.ofNatAux w hv, ?_, rfl⟩
    rw [unpack_char, if_neg hne]
    show (match char_from_u32 (toU32 w) with
          | some c => Except.ok (some (EventArgs.Char c))
          | none => Except.ok none) = _
    rw [h32, char_from_u32, dif_pos hv]

/-- Witness for C3 at the concrete inputs `w = 0xFFFF` and `w = 97`. -/
theorem unpack_char_sentinel_and_valid_witness :
    unpack_char defaultPlatform 0 WM_CHAR UNICODE_NOCHAR 0 = .ok none ∧
    ∃ c : Char, unpack_char defaultPlatform 0 WM_CHAR 97 0 =
      .ok (some (EventArgs.Char c)) ∧ c.toNat = 97 :=
  ⟨(unpack_char_sentinel_and_valid defaultPlatform 0 WM_CHAR UNICODE_NOCHAR 0).1 rfl,
   (unpack_char_sentinel_and_valid defaultPlatform 0 WM_CHAR 97 0).2
     (by decide) (by decide)⟩

/-! ## C9: the mouse-click unpacker is total with a `Left` default -/

/-- C9: for every message code the mouse-click unpacker returns a
`MouseClick` with the cursor coordinates taken from the `LPARAM` (never
nothing, never a panic), and for any code other than the six button up/down
codes the button defaults to `Left`. -/
theorem unpack_mouseclick_total (p : Platform) (hwnd msg w l : Nat) :
    (∃ b, unpack_mouseclick p hwnd msg w l =
      .ok (some (EventArgs.MouseClick b (GET_X_LPARAM l, GET_Y_LPARAM l)))) ∧
    (msg ∉ [WM_LBUTTONUP, WM_LBUTTONDOWN, WM_RBUTTONUP, WM_RBUTTONDOWN,
            WM_MBUTTONUP, WM_MBUTTONDOWN] →
      unpack_mouseclick p hwnd msg w l =
        .ok (some (EventArgs.MouseClick MouseButton.Left
          (GET_X_LPARAM l, GET_Y_LPARAM l)))) := by
  constructor
  · exact ⟨_, rfl⟩
  · intro hmsg
    simp only [List.mem_cons, List.not_mem_nil, or_false, not_or] at hmsg
    obtain ⟨h1, h2, h3, h4, h5, h6⟩ := hmsg
    simp [unpack_mouseclick, h1, h2, h3, h4, h5, h6]

/-- Witness for C9 at the non-button message `WM_PAINT` with `l = 5`. -/
theorem unpack_mouseclick_total_witness :
    unpack_mouseclick defaultPlatform 0 WM_PAINT 0 5 =
      .ok (some (EventArgs.MouseClick MouseButton.Left (5, 0))) := by
  have h := (unpack_mouseclick_total defaultPlatform 0 WM_PAINT 0 5).2 (by decide)
  exact h

/-! ## C10: character unpacker on invalid code units -/

/-- Counterexample for C10 as stated: the `WPARAM` `2 ^ 32 + 97` is not a
valid Unicode scalar value, yet the unpacker truncates it with `as u32` and
yields `Char 'a'`, so a callback does fire. -/
theorem unpack_char_invalid_counterexample :
    ¬ Nat.isValidChar (2 ^ 32 + 97) ∧
    unpack_char defaultPlatform 0 WM_CHAR (2 ^ 32 + 97) 0 =
      .ok (some (EventArgs.Char (Char.ofNat 97))) := by
  constructor
  · decide
  · rfl

/-- C10 (amended): the character unpacker yields nothing for every `WPARAM`
whose low 32 bits (the result of the `as u32` truncation) are not a valid
Unicode scalar value — in particular for every surrogate code unit — so no
`Char` event and no callback fires for such inputs. -/
theorem unpack_char_invalid_low32 (p : Platform) (hwnd msg w l : Nat)
    (h : ¬ (toU32 w).isValidChar) :
    unpack_char p hwnd msg w l = .ok none := by
  rw [unpack_char]
  by_cases hw : w = UNICODE_NOCHAR
  · exfalso
    apply h
    rw [hw]
    decide
  · rw [if_neg hw]
    show (match char_from_u32 (toU32 w) with
          | some c => Except.ok (some (EventArgs.Char c))
          | none => Except.ok none) = _
    rw [char_from_u32, dif_neg h]

/-- Witness for the amended C10 at the surrogate code unit `0xD800`. -/
theorem unpack_char_invalid_low32_witness :
    unpack_char defaultPlatform 0 WM_CHAR 0xD800 0 = .ok none :=
  unpack_char_invalid_low32 defaultPlatform 0 WM_CHAR 0xD800 0 (by decide)

/-! ## C5: WM_COMMAND classification -/

/-- C5: for a `WM_COMMAND` message, a null payload pointer produces no
command event; otherwise the resolved control type selects the parse table,
where only `ListBox`, `TextInput`/`TextBox`, `Label` and `DatePicker` have
dedicated tables and every other control type yields nothing; and within
each table — `ListBox`, `TextInput`/`TextBox` (edit), `Label` (static) and
`DatePicker` alike — a notification code not listed for that control type
also yields nothing, so no callback runs. -/
theorem wm_command_dispatch :
    (∀ env w, classify env WM_COMMAND w 0 = .ok none) ∧
    (∀ env w l id c, l ≠ 0 → env.resolve (AnyHandle.HWND l) = some id →
      env.controls id = some c →
      classify env WM_COMMAND w l = .ok (parse_command id c.control_type w)) ∧
    (∀ id w ct, ct ≠ ControlType.ListBox → ct ≠ ControlType.TextInput →
      ct ≠ ControlType.TextBox → ct ≠ ControlType.Label →
      ct ≠ ControlType.DatePicker → parse_command id ct w = none) ∧
    (∀ id w, HIWORD (toU32 w) ∉ [LBN_SELCHANGE, LBN_DBLCLK, LBN_SETFOCUS, LBN_KILLFOCUS] →
      parse_command id ControlType.ListBox w = none) ∧
    (∀ id w, HIWORD (toU32 w) ∉ [EN_UPDATE, EN_MAXTEXT, EN_SETFOCUS, EN_KILLFOCUS] →
      parse_command id ControlType.TextInput w = none ∧
      parse_command id ControlType.TextBox w = none) ∧
    (∀ id w, HIWORD (toU32 w) ∉ [STN_CLICKED, STN_DBLCLK] →
      parse_command id ControlType.Label w = none) ∧
    (∀ id w, HIWORD (toU32 w) ≠ DTN_CLOSEUP →
      parse_command id ControlType.DatePicker w = none) := by
  refine ⟨?_, ?_, ?_, ?_, ?_, ?_, ?_⟩
  · intro env w
    simp [classify]
  · intro env w l id c hl hres hctl
    simp [classify, hl, hres, hctl]
  · intro id w ct h1 h2 h3 h4 h5
    cases ct <;> simp_all [parse_command]
  · intro id w hmem
    simp only [List.mem_cons, List.not_mem_nil, or_false, not_or] at hmem
    obtain ⟨h1, h2, h3, h4⟩ := hmem
    simp [parse_command, parse_listbox_command, h1, h2, h3, h4]
  · intro id w hmem
    simp only [List.mem_cons, List.not_mem_nil, or_false, not_or] at hmem
    obtain ⟨h1, h2, h3, h4⟩ := hmem
    constructor <;> simp [parse_command, parse_edit_command, h1, h2, h3, h4]
  · intro id w hmem
    simp only [List.mem_cons, List.not_mem_nil, or_false, not_or] at hmem
    obtain ⟨h1, h2⟩ := hmem
    simp [parse_command, parse_static_command, h1, h2]
  · intro id w hne
    simp [parse_command, parse_datepicker_command, hne]

/-- Witness for C5: a null payload on any registry, an unlisted control type
(`Button`), and the unrecognized notification code 3 on each of the four
tables (`ListBox`, `TextInput`, `TextBox`, `Label`, `DatePicker`). -/
theorem wm_command_dispatch_witness :
    classify emptyEnv WM_COMMAND 0 0 = .ok none ∧
    parse_command 1 ControlType.Button 0 = none ∧
    parse_command 7 ControlType.ListBox (3 * 2 ^ 16) = none ∧
    parse_command 7 ControlType.TextInput (3 * 2 ^ 16) = none ∧
    parse_command 7 ControlType.TextBox (3 * 2 ^ 16) = none ∧
    parse_command 7 ControlType.Label (3 * 2 ^ 16) = none ∧
    parse_command 7 ControlType.DatePicker (3 * 2 ^ 16) = none :=
  ⟨wm_command_dispatch.1 emptyEnv 0,
   wm_command_dispatch.2.2.1 1 0 ControlType.Button
     (by decide) (by decide) (by decide) (by decide) (by decide),
   wm_command_dispatch.2.2.2.1 7 (3 * 2 ^ 16) (by decide),
   (wm_command_dispatch.2.2.2.2.1 7 (3 * 2 ^ 16) (by decide)).1,
   (wm_command_dispatch.2.2.2.2.1 7 (3 * 2 ^ 16) (by decide)).2,
   wm_command_dispatch.2.2.2.2.2.1 7 (3 * 2 ^ 16) (by decide),
   wm_command_dispatch.2.2.2.2.2.2 7 (3 * 2 ^ 16) (by decide)⟩

/-! ## C6: WM_NOTIFY classification -/

/-- C6: for a `WM_NOTIFY` message whose sender handle resolves (and whose
control is stored), the per-control-type notify parser yields an event
exactly when the control type is `DatePicker` and the notification code is
`DTN_CLOSEUP` (the substitute for the change notification that fires twice),
in which case the event is `DateChanged` with empty payload. -/
theorem wm_notify_dispatch :
    (∀ id ct w t, parse_notify id ct w = some t ↔
      ct = ControlType.DatePicker ∧ toU32 w = DTN_CLOSEUP ∧
      t = (id, Event.DateChanged, EventArgs.None)) ∧
    (∀ env w l id c,
      env.resolve (AnyHandle.HWND (env.readNMHDR l).hwndFrom) = some id →
      env.controls id = some c →
      classify env WM_NOTIFY w l =
        .ok (parse_notify id c.control_type (env.readNMHDR l).code)) := by
  constructor
  · intro id ct w t
    cases ct
    case DatePicker =>
      constructor
      · intro h
        replace h : (if toU32 w = DTN_CLOSEUP then
            some (id, Event.DateChanged, EventArgs.None) else none) = some t := h
        split at h
        · rename_i hcode
          cases h
          exact ⟨rfl, hcode, rfl⟩
        · exact Option.noConfusion h
      · rintro ⟨-, hcode, ht⟩
        show (if toU32 w = DTN_CLOSEUP then
            some (id, Event.DateChanged, EventArgs.None) else none) = some t
        rw [if_pos hcode, ht]
    all_goals simp [parse_notify]
  · intro env w l id c hres hctl
    simp [classify, WM_COMMAND, WM_NOTIFY, hres, hctl]

/-- Witness for C6: a `DatePicker` control under id 1 behind window handle 5,
receiving the `DTN_CLOSEUP` notification. -/
theorem wm_notify_dispatch_witness :
    parse_notify 1 ControlType.DatePicker DTN_CLOSEUP =
      some (1, Event.DateChanged, EventArgs.None) ∧
    classify (envWith ControlType.DatePicker DTN_CLOSEUP) WM_NOTIFY 0 0 =
      .ok (some (1, Event.DateChanged, EventArgs.None)) := by
  constructor
  · exact (wm_notify_dispatch.1 1 ControlType.DatePicker DTN_CLOSEUP
      (1, Event.DateChanged, EventArgs.None)).2 ⟨rfl, by decide, rfl⟩
  · have h := wm_notify_dispatch.2 (envWith ControlType.DatePicker DTN_CLOSEUP) 0 0 1
      ⟨ControlType.DatePicker, 0⟩ (by decide) (by decide)
    rw [h]
    rfl

/-! ## C8: WM_MENUCOMMAND classification -/

/-- C8: for a `WM_MENUCOMMAND` message the dispatcher resolves the composite
handle built from the parent menu (`LPARAM`) and the item index obtained from
`get_menu_id`; every successful resolution yields exactly the generic
`Triggered` event with empty payload, and a failed resolution yields no
event. -/
theorem wm_menucommand_triggered :
    (∀ env w l id,
      env.resolve (AnyHandle.HMENU_ITEM l (env.getMenuId l (toI32 w))) = some id →
      classify env WM_MENUCOMMAND w l =
        .ok (some (id, Event.Triggered, EventArgs.None))) ∧
    (∀ env w l,
      env.resolve (AnyHandle.HMENU_ITEM l (env.getMenuId l (toI32 w))) = none →
      classify env WM_MENUCOMMAND w l = .ok none) := by
  constructor
  · intro env w l id hres
    simp [classify, WM_COMMAND, WM_NOTIFY, WM_MENUCOMMAND, hres]
  · intro env w l hres
    simp [classify, WM_COMMAND, WM_NOTIFY, WM_MENUCOMMAND, hres]

/-- Witness for C8: menu handle 9 whose item resolves to logical id 4, and
menu handle 7 which does not resolve. -/
theorem wm_menucommand_triggered_witness :
    classify menuEnv WM_MENUCOMMAND 0 9 =
      .ok (some (4, Event.Triggered, EventArgs.None)) ∧
    classify menuEnv WM_MENUCOMMAND 0 7 = .ok none :=
  ⟨wm_menucommand_triggered.1 menuEnv 0 9 4 (by decide),
   wm_menucommand_triggered.2 menuEnv 0 7 (by decide)⟩

/-! ## C2: failure semantics of handle resolution -/

/-- C2: a failed source-handle resolution in any classification arm is
non-fatal — no classified event fires and the message falls through to
default processing — while a resolved logical id with no control in the
store is a fatal assertion (the dispatcher halts before reaching the
default chain). -/
theorem lookup_failure_semantics :
    (∀ env w l, env.resolve (AnyHandle.HWND l) = none →
      classify env WM_COMMAND w l = .ok none) ∧
    (∀ env w l, env.resolve (AnyHandle.HWND (env.readNMHDR l).hwndFrom) = none →
      classify env WM_NOTIFY w l = .ok none) ∧
    (∀ env w l, env.resolve (AnyHandle.HMENU_ITEM l (env.getMenuId l (toI32 w))) = none →
      classify env WM_MENUCOMMAND w l = .ok none) ∧
    (∀ env w l, env.resolve (AnyHandle.Custom timerTypeId w) = none →
      classify env WM_TIMER w l = .ok none) ∧
    (∀ env hwnd msg w l, classify env msg w l = .ok none →
      process_events env hwnd msg w l =
        .ok (rawTriggers env hwnd msg w l, env.defSubclassProc hwnd msg w l)) ∧
    (∀ env hwnd w l id, l ≠ 0 → env.resolve (AnyHandle.HWND l) = some id →
      env.controls id = none →
      process_events env hwnd WM_COMMAND w l =
        .error "Could not find a control with with the specified type ID") ∧
    (∀ env hwnd w l id,
      env.resolve (AnyHandle.HWND (env.readNMHDR l).hwndFrom) = some id →
      env.controls id = none →
      process_events env hwnd WM_NOTIFY w l =
        .error "Could not find a control with with the specified type ID") ∧
    (∀ env hwnd w l id, env.resolve (AnyHandle.Custom timerTypeId w) = some id →
      env.controls id = none →
      process_events env hwnd WM_TIMER w l =
        .error "called Option unwrap on a None value") := by
  refine ⟨?_, ?_, ?_, ?_, ?_, ?_, ?_, ?_⟩
  · intro env w l hres
    by_cases hl : l = 0 <;> simp [classify, hl, hres]
  · intro env w l hres
    simp [classify, WM_COMMAND, WM_NOTIFY, hres]
  · intro env w l hres
    simp [classify, WM_COMMAND, WM_NOTIFY, WM_MENUCOMMAND, hres]
  · intro env w l hres
    simp [classify, WM_COMMAND, WM_NOTIFY, WM_MENUCOMMAND, WM_TIMER, hres]
  · intro env hwnd msg w l h
    have he := process_events_eq env hwnd msg w l none h
    simpa using he
  · intro env hwnd w l id hl hres hctl
    apply process_events_error
    simp [classify, hl, hres, hctl]
  · intro env hwnd w l id hres hctl
    apply process_events_error
    simp [classify, WM_COMMAND, WM_NOTIFY, hres, hctl]
  · intro env hwnd w l id hres hctl
    apply process_events_error
    simp [classify, WM_COMMAND, WM_NOTIFY, WM_MENUCOMMAND, WM_TIMER, hres, hctl]

/-- Witness for C2: an unresolvable handle is non-fatal on the empty
registry, and the desynchronized registry (handle 5 resolves to id 1, store
empty) panics on `WM_COMMAND`. -/
theorem lookup_failure_semantics_witness :
    classify emptyEnv WM_COMMAND 0 5 = .ok none ∧
    process_events desyncEnv 0 WM_COMMAND 0 5 =
      .error "Could not find a control with with the specified type ID" :=
  ⟨lookup_failure_semantics.1 emptyEnv 0 5 rfl,
   lookup_failure_semantics.2.2.2.2.2.1 desyncEnv 0 0 5 1
     (by decide) (by decide) rfl⟩

/-! ## C7: the raw Any event -/

/-- C7: for a message outside the reserved custom range, if the receiving
window resolves then `Event::Any` with `EventArgs::Raw` (original code and
both payload words) fires in addition to — after — any classified event;
for a message inside the reserved range the raw event does not fire. -/
theorem raw_event_independent :
    ∀ env hwnd msg w l cb, classify env msg w l = .ok cb →
      ((¬ (NWG_CUSTOM_MIN ≤ msg ∧ msg ≤ NWG_CUSTOM_MAX)) → ∀ id,
        env.resolve (AnyHandle.HWND hwnd) = some id →
        process_events env hwnd msg w l =
          .ok (cb.toList ++ [(id, Event.Any, EventArgs.Raw msg w l)],
               env.defSubclassProc hwnd msg w l)) ∧
      ((NWG_CUSTOM_MIN ≤ msg ∧ msg ≤ NWG_CUSTOM_MAX) →
        process_events env hwnd msg w l =
          .ok (cb.toList, env.defSubclassProc hwnd msg w l)) := by
  intro env hwnd msg w l cb hcb
  constructor
  · intro hout id hres
    have hcond : msg < NWG_CUSTOM_MIN ∨ msg > NWG_CUSTOM_MAX := by omega
    rw [process_events_eq env hwnd msg w l cb hcb]
    simp [rawTriggers, hcond, hres]
  · intro hin
    have hcond : ¬ (msg < NWG_CUSTOM_MIN ∨ msg > NWG_CUSTOM_MAX) := by omega
    rw [process_events_eq env hwnd msg w l cb hcb]
    simp [rawTriggers, hcond]

/-- Witness for C7: `WM_PAINT` (outside the custom range) on a resolving
window fires the raw event; message `0x8005` (inside the range) does not. -/
theorem raw_event_independent_witness :
    process_events (envWith ControlType.Button 0) 5 WM_PAINT 3 4 =
      .ok ([(1, Event.Any, EventArgs.Raw WM_PAINT 3 4)], 0) ∧
    process_events (envWith ControlType.Button 0) 5 0x8005 3 4 = .ok ([], 0) := by
  constructor
  · have h := (raw_event_independent (envWith ControlType.Button 0) 5 WM_PAINT 3 4
      none rfl).1 (by decide) 1 (by decide)
    exact h
  · have h := (raw_event_independent (envWith ControlType.Button 0) 5 0x8005 3 4
      none rfl).2 (by decide)
    exact h

/-! ## C1: the dispatcher always forwards to the default chain -/

/-- On a consistent registry, classification never panics. -/
theorem classify_isOk_of_consistent (env : DispatchEnv) (msg w l : Nat)
    (hcons : Consistent env) : ∃ cb, classify env msg w l = .ok cb := by
  unfold classify
  split_ifs with h1 h2 h3 h4 h5
  · exact ⟨none, rfl⟩
  · cases hres : env.resolve (AnyHandle.HWND l) with
    | none => simp [hres]
    | some id =>
      have hid := hcons _ _ hres
      cases hctl : env.controls id with
      | none => rw [hctl] at hid; simp at hid
      | some c => simp [hres, hctl]
  · cases hres : env.resolve (AnyHandle.HWND (env.readNMHDR l).hwndFrom) with
    | none => simp [hres]
    | some id =>
      have hid := hcons _ _ hres
      cases hctl : env.controls id with
      | none => rw [hctl] at hid; simp at hid
      | some c => simp [hres, hctl]
  · cases hres : env.resolve (AnyHandle.HMENU_ITEM l (env.getMenuId l (toI32 w))) with
    | none => simp [hres]
    | some id => simp [hres]
  · cases hres : env.resolve (AnyHandle.Custom timerTypeId w) with
    | none => simp [hres]
    | some id =>
      have hid := hcons _ _ hres
      cases hctl : env.controls id with
      | none => rw [hctl] at hid; simp at hid
      | some c => simp [hres, hctl]
  · exact ⟨none, rfl⟩

/-- C1: on a consistent registry (the fatal-assertion condition of the
failure semantics never holds), every raw message delivered to the subclass
dispatch procedure is forwarded to the default subclass chain after custom
handling, and the procedure returns the default chain's result — no message
is swallowed on any classification path. -/
theorem process_events_always_forwards (env : DispatchEnv) (hwnd msg w l : Nat)
    (hcons : Consistent env) :
    ∃ ts, process_events env hwnd msg w l =
      .ok (ts, env.defSubclassProc hwnd msg w l) := by
  obtain ⟨cb, hcb⟩ := classify_isOk_of_consistent env msg w l hcons
  exact ⟨_, process_events_eq env hwnd msg w l cb hcb⟩

/-- Witness for C1 on the empty registry at message `WM_PAINT`. -/
theorem process_events_always_forwards_witness :
    ∃ ts, process_events emptyEnv 7 WM_PAINT 0 0 =
      .ok (ts, emptyEnv.defSubclassProc 7 WM_PAINT 0 0) :=
  process_events_always_forwards emptyEnv 7 WM_PAINT 0 0
    (fun _ _ hres => Option.noConfusion hres)

/-! ## C4: totality of the unpackers over their declared code ranges -/

/-- Helper: the character unpacker never panics. -/
theorem isOk_unpack_char (p : Platform) (hwnd m w l : Nat) :
    (unpack_char p hwnd m w l).isOk = true := by
  simp only [unpack_char]
  split
  · rfl
  · cases char_from_u32 (toU32 w) <;> rfl

/-- Counterexample for C4 as stated: the combo-box selection-changed event
declares `CBN_SELCHANGE`, but its unpacker is `unimplemented!()` and panics
there instead of returning a value. -/
theorem unpacker_totality_counterexample :
    ¬ (∀ e ∈ allEvents, evtTotal e) := by
  intro h
  have h2 := h CbnSelectionChanged (by simp [allEvents])
  have h3 := h2 0 CBN_SELCHANGE (by simp)
  simp [unpack_cbn_sel_change, Except.isOk, Except.toBool] at h3

/-- C4 (amended): every message unpacker except the combo-box
selection-changed one is total over the code range its event declares —
it returns a decoded value or the not-applicable sentinel without panicking;
the combo-box selection-changed unpacker is unimplemented and panics on
every notification code, including `CBN_SELCHANGE`. -/
theorem unpacker_totality_amended :
    (∀ e ∈ allEvents, e ≠ CbnSelectionChanged → evtTotal e) ∧
    (∀ hwnd ncode, unpack_cbn_sel_change hwnd ncode = .error "not implemented") := by
  constructor
  · intro e he hne
    simp only [allEvents, List.mem_cons, List.not_mem_nil, or_false] at he
    rcases he with rfl | rfl | rfl | rfl | rfl | rfl | rfl | rfl | rfl | rfl | rfl |
      rfl | rfl | rfl | rfl
    all_goals first
      | exact absurd rfl hne
      | exact fun p hwnd w l m hm => isOk_unpack_char p hwnd m w l
      | exact fun p hwnd w l m hm => rfl
      | exact fun hwnd m hm => rfl
  · intro hwnd ncode
    rfl

/-- Witness for the amended C4: the paint event is total over its declared
code, and the combo-box selection-changed unpacker panics at
`CBN_SELCHANGE`. -/
theorem unpacker_totality_amended_witness :
    evtTotal Paint ∧
    unpack_cbn_sel_change 0 CBN_SELCHANGE = .error "not implemented" :=
  ⟨unpacker_totality_amended.1 Paint (by simp [allEvents])
     (by intro h; simp [Paint, CbnSelectionChanged] at h),
   unpacker_totality_amended.2 0 CBN_SELCHANGE⟩

end Nwg
